import Mathlib

/-!
Verification of `generate_comparison_charts.py` (PostgreSQL vs Citus benchmark
comparison tool).

The program is a linear pandas pipeline: `load_data` reads two CSV files,
coerces three columns to numeric, drops rows with missing throughput or
latency and concatenates; `calculate_statistics` groups by
(Database_Type, Suite, Clients) and aggregates mean/std/min/max and a count;
three chart renderers lay out one subplot per distinct Suite and draw grouped
bars or scatter points; `create_summary_table` pivots the statistics per
engine and writes a relative-difference column and a grand-mean analysis
block with verdict lines.

Numeric cells are modelled as exact rationals (`ℚ`); a CSV cell is a `Cell`
that is either numeric, non-numeric text, or missing, matching what
`pd.to_numeric(..., errors='coerce')` distinguishes.  Standard deviations are
carried as their squares (the sample variance): the program's std is the
square root of the value tracked here, which is irrational in general; the
NaN-for-singleton behaviour (pandas `std` with `ddof = 1`) and the
`fillna(0)` step are modelled exactly, and `std = 0` holds iff the tracked
square is `0`.
-/

namespace GenCharts

/-- Floor of a rational number, as used for rounding. -/
def ratFloor (q : ℚ) : ℤ := ⌊q⌋

/-- Round to the nearest integer, ties to even — the rounding used by
`numpy`/`pandas.DataFrame.round` ("banker's rounding"). -/
def roundHalfEven (x : ℚ) : ℤ :=
  let f := ratFloor x
  if x - f < 1 / 2 then f
  else if 1 / 2 < x - f then f + 1
  else if f % 2 = 0 then f else f + 1

/-- Round a rational to `d` decimal places, ties to even, modelling
`Series.round(d)`. -/
def roundTo (d : ℕ) (x : ℚ) : ℚ := (roundHalfEven (x * 10 ^ d) : ℚ) / 10 ^ d

/-- Arithmetic mean of a list of rationals (pandas `mean` over the non-null
values of a group). For the empty list this is `0/0 = 0`; the pipeline never
takes the mean of an empty list. -/
def mean (xs : List ℚ) : ℚ := xs.sum / xs.length

/-- Minimum of a nonempty list (pandas `min`); `0` on the empty list, which
the pipeline never produces. -/
def listMin : List ℚ → ℚ
  | [] => 0
  | [x] => x
  | x :: y :: t => min x (listMin (y :: t))

/-- Maximum of a nonempty list (pandas `max`); `0` on the empty list. -/
def listMax : List ℚ → ℚ
  | [] => 0
  | [x] => x
  | x :: y :: t => max x (listMax (y :: t))

/-- Sample variance (pandas `std` squared, `ddof = 1`): `none` models the NaN
that pandas produces for a group with fewer than two values. -/
def sampleVar (xs : List ℚ) : Option ℚ :=
  if xs.length ≤ 1 then none
  else some (((xs.map (fun x => (x - mean xs) ^ 2)).sum) / ((xs.length : ℚ) - 1))

/-- The `fillna(0)` step applied to a possibly-NaN aggregate. -/
def fillnaZero : Option ℚ → ℚ
  | none => 0
  | some v => v

/-- Lexicographic string comparison as a Bool, mirroring Python string `<=`
used by pandas when sorting group keys. -/
def strLe (a b : String) : Bool := (compare a b).isLE

/-- Insert into a sorted list (helper for `sortBy`). -/
def sortIns (le : α → α → Bool) (x : α) : List α → List α
  | [] => [x]
  | y :: ys => if le x y then x :: y :: ys else y :: sortIns le x ys

/-- Insertion sort by a boolean comparison (models pandas' ascending sort of
group keys and `sorted(...)` over suite names). -/
def sortBy (le : α → α → Bool) (l : List α) : List α := l.foldr (sortIns le) []

/-- First-occurrence deduplication (pandas `unique`). -/
def uniqueList [DecidableEq α] : List α → List α
  | [] => []
  | x :: xs => x :: (uniqueList xs).filter (fun y => decide (y ≠ x))

/-- A raw CSV cell: a numeric value, non-numeric text, or missing.  This is
the distinction `pd.to_numeric(..., errors='coerce')` acts on; numeric-looking
strings are represented directly as `num` since `read_csv` already parses
them. -/
inductive Cell where
  | num (q : ℚ)
  | txt (s : String)
  | null
deriving DecidableEq

/-- The effect of `pd.to_numeric(..., errors='coerce')` on one cell: numeric
values survive, everything else becomes NaN (`none`). -/
def to_numeric : Cell → Option ℚ
  | .num q => some q
  | .txt _ => none
  | .null => none

/-- True when a cell is non-null; pandas `count` counts these. -/
def cellPresent : Cell → Bool
  | .null => false
  | _ => true

/-- One row as read by `read_csv`, before numeric coercion.  `Database_Type`
and `Suite` are taken as present strings (the pipeline indexes by them). -/
structure RawRow where
  Database_Type : String
  Suite : String
  Clients : Cell
  Run : Cell
  TPS : Cell
  Latency_Avg_ms : Cell
deriving DecidableEq

/-- One row of the combined frame after the three `to_numeric` coercions
(lines 73-75 of the source): `none` is a NaN produced by coercion. -/
structure Row where
  Database_Type : String
  Suite : String
  Clients : Option ℚ
  Run : Cell
  TPS : Option ℚ
  Latency_Avg_ms : Option ℚ
deriving DecidableEq

/-- Apply the column coercions of `load_data` to one row. `Run` is not
coerced by the source and stays as read. -/
def coerceRow (r : RawRow) : Row :=
  { Database_Type := r.Database_Type
    Suite := r.Suite
    Clients := to_numeric r.Clients
    Run := r.Run
    TPS := to_numeric r.TPS
    Latency_Avg_ms := to_numeric r.Latency_Avg_ms }

/-- The `dropna(subset=['TPS', 'Latency_Avg_ms'])` row filter. -/
def validRow (r : Row) : Bool := r.TPS.isSome && r.Latency_Avg_ms.isSome

/-- The error raised when an input CSV is absent
(`FileNotFoundError(f"... CSV not found: {path}")`). -/
inductive LoadError where
  | fileNotFound (label : String) (path : String)
deriving DecidableEq

/-- The message carried by a `LoadError`, as formatted by the source. -/
def LoadError.message : LoadError → String
  | .fileNotFound label path => label ++ " CSV not found: " ++ path

/-- The two input paths held by `BenchmarkAnalyzer`. -/
structure Analyzer where
  postgresql_csv : String
  citus_csv : String
deriving DecidableEq

/-- Path construction from `BenchmarkAnalyzer.__init__`. -/
def mkAnalyzer (base_dir : String) : Analyzer :=
  { postgresql_csv :=
      base_dir ++ "/postgre/benchmark_universal/latest_reports/benchmark_results.csv"
    citus_csv :=
      base_dir ++ "/citus/benchmark_universal/latest_reports/benchmark_results.csv" }

/-- `load_data`: existence checks (PostgreSQL first), then concatenation of
the two frames, numeric coercion of three columns, and the dropna filter.
The filesystem is modelled by an existence predicate `ex` and a content map
`content`; the existence checks run before any content is consulted. -/
def load_data (a : Analyzer) (ex : String → Bool)
    (content : String → List RawRow) : Except LoadError (List Row) :=
  if ex a.postgresql_csv then
    if ex a.citus_csv then
      let combined := content a.postgresql_csv ++ content a.citus_csv
      .ok (((combined.map coerceRow)).filter validRow)
    else .error (.fileNotFound "Citus" a.citus_csv)
  else .error (.fileNotFound "PostgreSQL" a.postgresql_csv)

/-- Group key of a row for `groupby(['Database_Type', 'Suite', 'Clients'])`;
`none` when the `Clients` key is NaN, in which case pandas silently drops the
row from every group. -/
def rowKeyQ (r : Row) : Option (String × String × ℚ) :=
  r.Clients.map (fun c => (r.Database_Type, r.Suite, c))

/-- Ascending lexicographic order on (Suite, Clients) pivot keys. -/
def keyLe2 (a b : String × ℚ) : Bool :=
  if a.1 = b.1 then decide (a.2 ≤ b.2) else strLe a.1 b.1

/-- Ascending lexicographic order on (Database_Type, Suite, Clients) group
keys, as pandas sorts groups. -/
def keyLe3 (a b : String × String × ℚ) : Bool :=
  if a.1 = b.1 then keyLe2 a.2 b.2 else strLe a.1 b.1

/-- The sorted distinct group keys of `groupby(['Database_Type', 'Suite',
'Clients'])`; rows whose `Clients` is NaN contribute no key. -/
def groupKeys (data : List Row) : List (String × String × ℚ) :=
  sortBy keyLe3 (uniqueList (data.filterMap rowKeyQ))

/-- The rows of one group: exactly the rows whose (non-NaN) key equals `k`. -/
def groupRows (data : List Row) (k : String × String × ℚ) : List Row :=
  data.filter (fun r => decide (rowKeyQ r = some k))

/-- One row of the statistics frame produced by `calculate_statistics`, with
the flattened column names of lines 101-106.  `TPS_std_sq` and
`Latency_std_sq` carry the square of the std columns (see the file header);
the `fillna(0)` of lines 109-110 is already applied. -/
structure Stat where
  Database_Type : String
  Suite : String
  Clients : ℚ
  TPS_mean : ℚ
  TPS_std_sq : ℚ
  TPS_min : ℚ
  TPS_max : ℚ
  Latency_mean : ℚ
  Latency_std_sq : ℚ
  Latency_min : ℚ
  Latency_max : ℚ
  Run_count : ℕ
deriving DecidableEq

/-- The aggregated row for one group key (the `agg` dict of lines 94-98):
mean/std/min/max of `TPS` and `Latency_Avg_ms` over the group's non-null
values, and `count` of non-null `Run` cells. -/
def statOfKey (data : List Row) (k : String × String × ℚ) : Stat :=
  let g := groupRows data k
  let tps := g.filterMap (fun r => r.TPS)
  let lat := g.filterMap (fun r => r.Latency_Avg_ms)
  { Database_Type := k.1
    Suite := k.2.1
    Clients := k.2.2
    TPS_mean := mean tps
    TPS_std_sq := fillnaZero (sampleVar tps)
    TPS_min := listMin tps
    TPS_max := listMax tps
    Latency_mean := mean lat
    Latency_std_sq := fillnaZero (sampleVar lat)
    Latency_min := listMin lat
    Latency_max := listMax lat
    Run_count := (g.filter (fun r => cellPresent r.Run)).length }

/-- `calculate_statistics`: one aggregated row per sorted distinct group
key. -/
def calculate_statistics (data : List Row) : List Stat :=
  (groupKeys data).map (statOfKey data)

/-- The sorted distinct workload names (`sorted(stats['Suite'].unique())`),
computed identically at the top of all three chart renderers. -/
def suitesOf (stats : List Stat) : List String :=
  sortBy strLe (uniqueList (stats.map (fun r => r.Suite)))

/-- Subplot grid and figure size chosen by `plt.subplots`. -/
structure Layout where
  nrows : ℕ
  ncols : ℕ
  width : ℚ
  height : ℚ
deriving DecidableEq

/-- The layout branching that appears verbatim in `create_tps_comparison`,
`create_latency_comparison` and `create_throughput_vs_latency`: one standalone
plot for a single workload, a side-by-side pair for two, otherwise one row of
`n` subplots of width `7 * n`. -/
def layoutFor (n : ℕ) : Layout :=
  if n = 1 then ⟨1, 1, 10, 7⟩
  else if n = 2 then ⟨1, 2, 15, 7⟩
  else ⟨1, n, 7 * (n : ℚ), 7⟩

/-- The rows of the statistics frame for one workload
(`stats[stats['Suite'] == suite]`). -/
def suiteRows (stats : List Stat) (s : String) : List Stat :=
  stats.filter (fun r => decide (r.Suite = s))

/-- The rows for one engine within a workload
(`suite_data[suite_data['Database_Type'] == db]`). -/
def dbRows (sd : List Stat) (db : String) : List Stat :=
  sd.filter (fun r => decide (r.Database_Type = db))

/-- Result length of `np.broadcast_arrays` on two 1-D shapes, `none` when
numpy raises the shape-mismatch `ValueError`.  `Axes.bar` broadcasts its `x`
and `height` arguments this way before drawing. -/
def broadcast2 (a b : ℕ) : Option ℕ :=
  if a = b then some a
  else if a = 1 then some b
  else if b = 1 then some a
  else none

/-- Broadcast a 1-D value list to a target length (identity when the lengths
already agree, otherwise replication of the single element; only reached when
`broadcast2` succeeded). -/
def broadcastTo (xs : List ℚ) (n : ℕ) : List ℚ :=
  if xs.length = n then xs else List.replicate n (xs.headD 0)

/-- One subplot of a grouped-bar chart: the bar heights actually drawn for
each engine and the client-count tick labels (taken from the PostgreSQL
rows, `set_xticklabels(pg_data['Clients'])`). -/
structure BarPanel where
  suite : String
  pgBars : List ℚ
  citusBars : List ℚ
  xticks : List ℚ
deriving DecidableEq

/-- A `ValueError` from numpy broadcasting inside `Axes.bar`, carrying the
two mismatched 1-D lengths. -/
inductive RenderError where
  | shapeMismatch (xlen hlen : ℕ)
deriving DecidableEq

/-- The body of the per-suite loop of a grouped-bar renderer.  `x =
np.arange(len(pg_data))`; the first `ax.bar` call broadcasts `x` against the
PostgreSQL heights (same length, always fine), the second broadcasts `x`
against the Citus heights and raises when the lengths are incompatible.  The
`yerr` series has the same length as its heights series and never fails once
the bar broadcast has succeeded, so it is not carried here. -/
def barPanel (meanOf : Stat → ℚ) (stats : List Stat) (s : String) :
    Except RenderError BarPanel :=
  let sd := suiteRows stats s
  let pgd := dbRows sd "postgresql"
  let cit := dbRows sd "citus"
  match broadcast2 pgd.length cit.length with
  | none => .error (.shapeMismatch pgd.length cit.length)
  | some n2 =>
    .ok { suite := s
          pgBars := pgd.map meanOf
          citusBars := broadcastTo (cit.map meanOf) n2
          xticks := pgd.map (fun r => r.Clients) }

/-- Run the per-suite loop over a list of suites, stopping at the first
raised error, as the Python `for` loop does. -/
def buildPanels (meanOf : Stat → ℚ) (stats : List Stat) :
    List String → Except RenderError (List BarPanel)
  | [] => .ok []
  | s :: rest =>
    match barPanel meanOf stats s with
    | .error e => .error e
    | .ok p =>
      match buildPanels meanOf stats rest with
      | .error e => .error e
      | .ok ps => .ok (p :: ps)

/-- A grouped-bar figure: the layout is chosen by `plt.subplots` before the
suite loop runs, so it exists even when the loop later raises. -/
structure BarChart where
  layout : Layout
  panels : Except RenderError (List BarPanel)

/-- `create_tps_comparison`: grouped bars of `TPS_mean` per suite. -/
def create_tps_comparison (stats : List Stat) : BarChart :=
  let suites := suitesOf stats
  { layout := layoutFor suites.length
    panels := buildPanels (fun r => r.TPS_mean) stats suites }

/-- `create_latency_comparison`: grouped bars of `Latency_mean` per suite;
identical structure to the TPS chart. -/
def create_latency_comparison (stats : List Stat) : BarChart :=
  let suites := suitesOf stats
  { layout := layoutFor suites.length
    panels := buildPanels (fun r => r.Latency_mean) stats suites }

/-- One subplot of the scatter chart: `(Latency_mean, TPS_mean)` points per
engine; `ax.scatter` takes both coordinate lists from the same filtered
frame, so they always have equal length and the call never raises. -/
structure ScatterPanel where
  suite : String
  pgPoints : List (ℚ × ℚ)
  citusPoints : List (ℚ × ℚ)
deriving DecidableEq

/-- The body of the per-suite loop of `create_throughput_vs_latency`. -/
def scatterPanel (stats : List Stat) (s : String) : ScatterPanel :=
  let sd := suiteRows stats s
  { suite := s
    pgPoints := (dbRows sd "postgresql").map (fun r => (r.Latency_mean, r.TPS_mean))
    citusPoints := (dbRows sd "citus").map (fun r => (r.Latency_mean, r.TPS_mean)) }

/-- The scatter figure: layout plus one panel per suite; total. -/
structure ScatterChart where
  layout : Layout
  panels : List ScatterPanel
deriving DecidableEq

/-- `create_throughput_vs_latency`: TPS-vs-latency scatter, one subplot per
suite. -/
def create_throughput_vs_latency (stats : List Stat) : ScatterChart :=
  let suites := suitesOf stats
  { layout := layoutFor suites.length
    panels := suites.map (scatterPanel stats) }

/-- The sorted distinct (Suite, Clients) row keys of the two pivot tables of
`create_summary_table` (`pivot_table(index=['Suite', 'Clients'], ...)`). -/
def pivotKeys (stats : List Stat) : List (String × ℚ) :=
  sortBy keyLe2 (uniqueList (stats.map (fun r => (r.Suite, r.Clients))))

/-- One cell of the TPS pivot: the mean (`aggfunc='mean'`) of the `TPS_mean`
values of the statistics rows matching the row key and engine column,
rounded to one decimal (`.round(1)` on the whole pivot); `none` is the NaN
cell of a (key, engine) combination with no rows. -/
def pivot_tps_cell (stats : List Stat) (k : String × ℚ) (db : String) : Option ℚ :=
  let xs := (stats.filter (fun r =>
    decide (r.Suite = k.1) && decide (r.Clients = k.2) && decide (r.Database_Type = db))).map
      (fun r => r.TPS_mean)
  if xs.isEmpty then none else some (roundTo 1 (mean xs))

/-- One cell of the latency pivot, rounded to two decimals (`.round(2)`). -/
def pivot_latency_cell (stats : List Stat) (k : String × ℚ) (db : String) : Option ℚ :=
  let xs := (stats.filter (fun r =>
    decide (r.Suite = k.1) && decide (r.Clients = k.2) && decide (r.Database_Type = db))).map
      (fun r => r.Latency_mean)
  if xs.isEmpty then none else some (roundTo 2 (mean xs))

/-- Whether an engine column exists in the pivots as a whole
(`'postgresql' in pivot_tps.columns`): true iff some statistics row carries
that engine. -/
def hasCol (stats : List Stat) (db : String) : Bool :=
  stats.any (fun r => decide (r.Database_Type = db))

/-- The `Citus_vs_PG_%` column of the TPS pivot (line 339): computed only
when both engine columns exist globally; per row it is
`round1((citus - postgresql) / postgresql * 100)`, NaN when either cell is
NaN. -/
def pivot_tps_diff (stats : List Stat) (k : String × ℚ) : Option ℚ :=
  if hasCol stats "postgresql" && hasCol stats "citus" then
    match pivot_tps_cell stats k "postgresql", pivot_tps_cell stats k "citus" with
    | some p, some c => some (roundTo 1 ((c - p) / p * 100))
    | _, _ => none
  else none

/-- The `Citus_vs_PG_%` column of the latency pivot (line 340); also rounded
to one decimal. -/
def pivot_latency_diff (stats : List Stat) (k : String × ℚ) : Option ℚ :=
  if hasCol stats "postgresql" && hasCol stats "citus" then
    match pivot_latency_cell stats k "postgresql", pivot_latency_cell stats k "citus" with
    | some p, some c => some (roundTo 1 ((c - p) / p * 100))
    | _, _ => none
  else none

/-- Which engine a verdict line of the summary analysis names. -/
inductive Verdict where
  | citus
  | postgresql
deriving DecidableEq

/-- The grand-mean analysis block of the summary report (lines 365-387):
column means of the pivots (NaN cells skipped), the percentage differences,
and the two verdict lines. -/
structure AnalysisBlock where
  avg_tps_pg : ℚ
  avg_tps_citus : ℚ
  avg_lat_pg : ℚ
  avg_lat_citus : ℚ
  tps_diff_pct : ℚ
  lat_diff_pct : ℚ
  tpsVerdict : Verdict
  latVerdict : Verdict
deriving DecidableEq

/-- The summary artefact of `create_summary_table` that the claims concern:
the pivot row keys and the optional analysis block (written only when both
engine columns exist). -/
structure Summary where
  keys : List (String × ℚ)
  analysis : Option AnalysisBlock
deriving DecidableEq

/-- `create_summary_table`: the pivots themselves are exposed through
`pivot_tps_cell` / `pivot_latency_cell` / the two `_diff` columns; the
analysis block (grand means over the pivot columns, skipping NaN cells, and
the strict-comparison verdicts of lines 379-387) is produced iff both engine
columns exist in the pivot. -/
def create_summary_table (stats : List Stat) : Summary :=
  let ks := pivotKeys stats
  { keys := ks
    analysis :=
      if hasCol stats "postgresql" && hasCol stats "citus" then
        let avg_tps_pg := mean (ks.filterMap (fun k => pivot_tps_cell stats k "postgresql"))
        let avg_tps_citus := mean (ks.filterMap (fun k => pivot_tps_cell stats k "citus"))
        let avg_lat_pg := mean (ks.filterMap (fun k => pivot_latency_cell stats k "postgresql"))
        let avg_lat_citus := mean (ks.filterMap (fun k => pivot_latency_cell stats k "citus"))
        some { avg_tps_pg := avg_tps_pg
               avg_tps_citus := avg_tps_citus
               avg_lat_pg := avg_lat_pg
               avg_lat_citus := avg_lat_citus
               tps_diff_pct := (avg_tps_citus - avg_tps_pg) / avg_tps_pg * 100
               lat_diff_pct := (avg_lat_citus - avg_lat_pg) / avg_lat_pg * 100
               tpsVerdict := if avg_tps_pg < avg_tps_citus then .citus else .postgresql
               latVerdict := if avg_lat_citus < avg_lat_pg then .citus else .postgresql }
      else none }

/-! Helper lemmas about the aggregation primitives. -/

theorem le_listMax : ∀ (l : List ℚ), ∀ y ∈ l, y ≤ listMax l
  | [], y, hy => by simp at hy
  | [x], y, hy => by
      rcases List.mem_singleton.mp hy with rfl
      simp [listMax]
  | x :: z :: t, y, hy => by
      rcases List.mem_cons.mp hy with rfl | h
      · simp [listMax]
      · have ih := le_listMax (z :: t) y h
        have : listMax (z :: t) ≤ listMax (x :: z :: t) := by
          simp [listMax]
        exact le_trans ih this

theorem listMin_le : ∀ (l : List ℚ), ∀ y ∈ l, listMin l ≤ y
  | [], y, hy => by simp at hy
  | [x], y, hy => by
      rcases List.mem_singleton.mp hy with rfl
      simp [listMin]
  | x :: z :: t, y, hy => by
      rcases List.mem_cons.mp hy with rfl | h
      · simp [listMin]
      · have ih := listMin_le (z :: t) y h
        have : listMin (x :: z :: t) ≤ listMin (z :: t) := by
          simp [listMin]
        exact le_trans this ih

theorem sum_le_len_mul (l : List ℚ) (M : ℚ) (h : ∀ y ∈ l, y ≤ M) :
    l.sum ≤ (l.length : ℚ) * M := by
  induction l with
  | nil => simp
  | cons x t ih =>
    have hx := h x (by simp)
    have ht := ih (fun y hy => h y (by simp [hy]))
    simp only [List.sum_cons, List.length_cons]
    push_cast
    linarith

theorem len_mul_le_sum (l : List ℚ) (m : ℚ) (h : ∀ y ∈ l, m ≤ y) :
    (l.length : ℚ) * m ≤ l.sum := by
  induction l with
  | nil => simp
  | cons x t ih =>
    have hx := h x (by simp)
    have ht := ih (fun y hy => h y (by simp [hy]))
    simp only [List.sum_cons, List.length_cons]
    push_cast
    linarith

theorem length_pos_q (l : List ℚ) (h : l ≠ []) : 0 < (l.length : ℚ) := by
  have := List.length_pos.mpr h
  exact_mod_cast this

theorem mean_le_listMax (l : List ℚ) (h : l ≠ []) : mean l ≤ listMax l := by
  rw [mean, div_le_iff₀ (length_pos_q l h)]
  have := sum_le_len_mul l (listMax l) (le_listMax l)
  linarith

theorem listMin_le_mean (l : List ℚ) (h : l ≠ []) : listMin l ≤ mean l := by
  rw [mean, le_div_iff₀ (length_pos_q l h)]
  have := len_mul_le_sum l (listMin l) (listMin_le l)
  linarith

theorem sampleVar_short (xs : List ℚ) (h : xs.length ≤ 1) : sampleVar xs = none := by
  simp [sampleVar, h]

/-!
C2 — a group with exactly one row has standard deviation exactly 0 for both
metrics.  pandas `std` with `ddof = 1` yields NaN on one value; the
`fillna(0)` of lines 109-110 turns it into exactly 0 (the tracked square of
the std is 0 iff the std is 0).
-/

/-- C2: for every group produced by `calculate_statistics` whose row count is
exactly 1, the computed standard deviation of throughput and of latency is
exactly 0 (never NaN): the squared std columns, after the source's
`fillna(0)`, are exactly 0. -/
theorem c2_singleton_group_std_zero (data : List Row) (s : Stat)
    (hs : s ∈ calculate_statistics data)
    (hlen : (groupRows data (s.Database_Type, s.Suite, s.Clients)).length = 1) :
    s.TPS_std_sq = 0 ∧ s.Latency_std_sq = 0 := by
  rcases List.mem_map.mp hs with ⟨k, _, rfl⟩
  obtain ⟨a, b, c⟩ := k
  have hlen2 : (groupRows data (a, b, c)).length = 1 := hlen
  constructor
  · show fillnaZero (sampleVar ((groupRows data (a, b, c)).filterMap
      (fun r => r.TPS))) = 0
    have hle : ((groupRows data (a, b, c)).filterMap (fun r => r.TPS)).length ≤ 1 := by
      calc ((groupRows data (a, b, c)).filterMap (fun r => r.TPS)).length
          ≤ (groupRows data (a, b, c)).length := List.length_filterMap_le _ _
        _ = 1 := hlen2
    rw [sampleVar_short _ hle]
    rfl
  · show fillnaZero (sampleVar ((groupRows data (a, b, c)).filterMap
      (fun r => r.Latency_Avg_ms))) = 0
    have hle : ((groupRows data (a, b, c)).filterMap
        (fun r => r.Latency_Avg_ms)).length ≤ 1 := by
      calc ((groupRows data (a, b, c)).filterMap (fun r => r.Latency_Avg_ms)).length
          ≤ (groupRows data (a, b, c)).length := List.length_filterMap_le _ _
        _ = 1 := hlen2
    rw [sampleVar_short _ hle]
    rfl

/-- Witness for C2 at a one-row dataset. -/
theorem c2_singleton_group_std_zero_witness :
    (statOfKey [⟨"postgresql", "tpcb", some 1, .num 1, some 100, some 10⟩]
      ("postgresql", "tpcb", (1 : ℚ))).TPS_std_sq = 0 ∧
    (statOfKey [⟨"postgresql", "tpcb", some 1, .num 1, some 100, some 10⟩]
      ("postgresql", "tpcb", (1 : ℚ))).Latency_std_sq = 0 :=
  c2_singleton_group_std_zero
    [⟨"postgresql", "tpcb", some 1, .num 1, some 100, some 10⟩]
    (statOfKey [⟨"postgresql", "tpcb", some 1, .num 1, some 100, some 10⟩]
      ("postgresql", "tpcb", (1 : ℚ)))
    (by
      apply List.mem_map_of_mem
      decide)
    (by decide)

/-!
C8 — for groups with more than one row, the computed mean of each metric lies
in the closed interval of its computed min and max.  The rows fed to
`calculate_statistics` come from `load_data`, whose `dropna` guarantees both
metrics present on every row.
-/

/-- C8: for every group produced by `calculate_statistics` (on data whose
rows all pass the `dropna` filter, as `load_data` guarantees) with row count
greater than 1, the computed mean of each metric lies within the closed
interval of the group's computed min and max of that metric. -/
theorem c8_mean_within_min_max (data : List Row) (s : Stat)
    (hvalid : ∀ r ∈ data, validRow r = true)
    (hs : s ∈ calculate_statistics data)
    (hlen : 1 < (groupRows data (s.Database_Type, s.Suite, s.Clients)).length) :
    (s.TPS_min ≤ s.TPS_mean ∧ s.TPS_mean ≤ s.TPS_max) ∧
    (s.Latency_min ≤ s.Latency_mean ∧ s.Latency_mean ≤ s.Latency_max) := by
  rcases List.mem_map.mp hs with ⟨k, _, rfl⟩
  obtain ⟨a, b, c⟩ := k
  have hlen2 : 1 < (groupRows data (a, b, c)).length := hlen
  have hg : groupRows data (a, b, c) ≠ [] := by
    intro hnil
    rw [hnil] at hlen2
    simp at hlen2
  obtain ⟨r0, hr0⟩ := List.exists_mem_of_ne_nil _ hg
  have hr0d : r0 ∈ data := (List.mem_filter.mp hr0).1
  have hval : validRow r0 = true := hvalid r0 hr0d
  have htps : r0.TPS.isSome = true := by
    have := hval
    simp [validRow, Bool.and_eq_true] at this
    exact Option.isSome_iff_exists.mpr (by
      cases h : r0.TPS with
      | none => simp [h] at this
      | some v => exact ⟨v, rfl⟩)
  have hlat : r0.Latency_Avg_ms.isSome = true := by
    have := hval
    simp [validRow, Bool.and_eq_true] at this
    exact Option.isSome_iff_exists.mpr (by
      cases h : r0.Latency_Avg_ms with
      | none => simp [h] at this
      | some v => exact ⟨v, rfl⟩)
  have htpsne : (groupRows data (a, b, c)).filterMap (fun r => r.TPS) ≠ [] := by
    intro hnil
    have := List.filterMap_eq_nil_iff.mp hnil r0 hr0
    rw [this] at htps
    simp at htps
  have hlatne : (groupRows data (a, b, c)).filterMap (fun r => r.Latency_Avg_ms) ≠ [] := by
    intro hnil
    have := List.filterMap_eq_nil_iff.mp hnil r0 hr0
    rw [this] at hlat
    simp at hlat
  exact ⟨⟨listMin_le_mean _ htpsne, mean_le_listMax _ htpsne⟩,
    ⟨listMin_le_mean _ hlatne, mean_le_listMax _ hlatne⟩⟩

/-- Witness for C8 at a two-row group. -/
theorem c8_mean_within_min_max_witness :
    ((statOfKey [⟨"postgresql", "tpcb", some 1, .num 1, some 100, some 10⟩,
        ⟨"postgresql", "tpcb", some 1, .num 2, some 200, some 30⟩]
      ("postgresql", "tpcb", (1 : ℚ))).TPS_min ≤
      (statOfKey [⟨"postgresql", "tpcb", some 1, .num 1, some 100, some 10⟩,
        ⟨"postgresql", "tpcb", some 1, .num 2, some 200, some 30⟩]
      ("postgresql", "tpcb", (1 : ℚ))).TPS_mean ∧
     (statOfKey [⟨"postgresql", "tpcb", some 1, .num 1, some 100, some 10⟩,
        ⟨"postgresql", "tpcb", some 1, .num 2, some 200, some 30⟩]
      ("postgresql", "tpcb", (1 : ℚ))).TPS_mean ≤
      (statOfKey [⟨"postgresql", "tpcb", some 1, .num 1, some 100, some 10⟩,
        ⟨"postgresql", "tpcb", some 1, .num 2, some 200, some 30⟩]
      ("postgresql", "tpcb", (1 : ℚ))).TPS_max) ∧
    ((statOfKey [⟨"postgresql", "tpcb", some 1, .num 1, some 100, some 10⟩,
        ⟨"postgresql", "tpcb", some 1, .num 2, some 200, some 30⟩]
      ("postgresql", "tpcb", (1 : ℚ))).Latency_min ≤
      (statOfKey [⟨"postgresql", "tpcb", some 1, .num 1, some 100, some 10⟩,
        ⟨"postgresql", "tpcb", some 1, .num 2, some 200, some 30⟩]
      ("postgresql", "tpcb", (1 : ℚ))).Latency_mean ∧
     (statOfKey [⟨"postgresql", "tpcb", some 1, .num 1, some 100, some 10⟩,
        ⟨"postgresql", "tpcb", some 1, .num 2, some 200, some 30⟩]
      ("postgresql", "tpcb", (1 : ℚ))).Latency_mean ≤
      (statOfKey [⟨"postgresql", "tpcb", some 1, .num 1, some 100, some 10⟩,
        ⟨"postgresql", "tpcb", some 1, .num 2, some 200, some 30⟩]
      ("postgresql", "tpcb", (1 : ℚ))).Latency_max) :=
  c8_mean_within_min_max
    [⟨"postgresql", "tpcb", some 1, .num 1, some 100, some 10⟩,
     ⟨"postgresql", "tpcb", some 1, .num 2, some 200, some 30⟩]
    (statOfKey [⟨"postgresql", "tpcb", some 1, .num 1, some 100, some 10⟩,
        ⟨"postgresql", "tpcb", some 1, .num 2, some 200, some 30⟩]
      ("postgresql", "tpcb", (1 : ℚ)))
    (by decide)
    (by
      apply List.mem_map_of_mem
      decide)
    (by decide)

/-!
C4 — a missing input path aborts `load_data` with an error naming that path,
before any file content is consulted.
-/

/-- C4: if either input path does not exist, `load_data` fails with a
missing-input error whose message names the missing path; the PostgreSQL path
is checked first, and the outcome does not depend on any file content (the
`content` map is universally quantified, so no data is read before the
failure). -/
theorem c4_missing_input (a : Analyzer) (ex : String → Bool)
    (content : String → List RawRow) :
    (ex a.postgresql_csv = false →
      load_data a ex content =
        .error (.fileNotFound "PostgreSQL" a.postgresql_csv)) ∧
    (ex a.postgresql_csv = true → ex a.citus_csv = false →
      load_data a ex content = .error (.fileNotFound "Citus" a.citus_csv)) ∧
    (∀ label path, (LoadError.fileNotFound label path).message =
      label ++ " CSV not found: " ++ path) := by
  refine ⟨?_, ?_, ?_⟩
  · intro h
    simp [load_data, h]
  · intro h1 h2
    simp [load_data, h1, h2]
  · intro label path
    rfl

/-- Witness for C4 with both inputs absent: the PostgreSQL path is reported,
whatever the contents. -/
theorem c4_missing_input_witness :
    load_data (mkAnalyzer "base") (fun _ => false) (fun _ => []) =
      .error (.fileNotFound "PostgreSQL" (mkAnalyzer "base").postgresql_csv) ∧
    (LoadError.fileNotFound "PostgreSQL" (mkAnalyzer "base").postgresql_csv).message =
      "PostgreSQL" ++ " CSV not found: " ++ (mkAnalyzer "base").postgresql_csv :=
  ⟨(c4_missing_input (mkAnalyzer "base") (fun _ => false) (fun _ => [])).1 rfl,
   (c4_missing_input (mkAnalyzer "base") (fun _ => false) (fun _ => [])).2.2
     "PostgreSQL" (mkAnalyzer "base").postgresql_csv⟩

/-!
C5 — on parseable inputs the combined dataset is exactly the valid
PostgreSQL rows followed by the valid Citus rows, in original order, and its
row count is the sum of the two valid-row counts.
-/

/-- C5: when both files exist, `load_data` returns the engine-A (PostgreSQL)
rows with numeric throughput and latency, in original order, followed by the
engine-B (Citus) ones, and the combined row count is the sum of the two
valid-row counts. -/
theorem c5_combined_dataset (a : Analyzer) (ex : String → Bool)
    (content : String → List RawRow)
    (h1 : ex a.postgresql_csv = true) (h2 : ex a.citus_csv = true) :
    load_data a ex content =
      .ok (((content a.postgresql_csv).map coerceRow).filter validRow ++
           ((content a.citus_csv).map coerceRow).filter validRow) ∧
    (((content a.postgresql_csv).map coerceRow).filter validRow ++
      ((content a.citus_csv).map coerceRow).filter validRow).length =
      (content a.postgresql_csv).countP (fun r => validRow (coerceRow r)) +
      (content a.citus_csv).countP (fun r => validRow (coerceRow r)) := by
  constructor
  · simp [load_data, h1, h2, List.filter_append]
  · rw [List.length_append]
    have e1 : ∀ l : List RawRow,
        ((l.map coerceRow).filter validRow).length =
          l.countP (fun r => validRow (coerceRow r)) := by
      intro l
      rw [← List.countP_eq_length_filter, List.countP_map]
      rfl
    rw [e1, e1]

/-- Witness for C5: one valid and one invalid PostgreSQL row, one valid Citus
row. -/
theorem c5_combined_dataset_witness :
    load_data (mkAnalyzer "b")
      (fun _ => true)
      (fun p => if p = (mkAnalyzer "b").postgresql_csv then
          [⟨"postgresql", "tpcb", .num 1, .num 1, .num 100, .num 10⟩,
           ⟨"postgresql", "tpcb", .num 1, .num 2, .txt "err", .num 11⟩]
        else [⟨"citus", "tpcb", .num 1, .num 1, .num 150, .num 5⟩]) =
      .ok ((([⟨"postgresql", "tpcb", .num 1, .num 1, .num 100, .num 10⟩,
           ⟨"postgresql", "tpcb", .num 1, .num 2, .txt "err", .num 11⟩] :
             List RawRow).map coerceRow).filter validRow ++
           (([⟨"citus", "tpcb", .num 1, .num 1, .num 150, .num 5⟩] :
             List RawRow).map coerceRow).filter validRow) ∧
    ((([⟨"postgresql", "tpcb", .num 1, .num 1, .num 100, .num 10⟩,
           ⟨"postgresql", "tpcb", .num 1, .num 2, .txt "err", .num 11⟩] :
             List RawRow).map coerceRow).filter validRow ++
           (([⟨"citus", "tpcb", .num 1, .num 1, .num 150, .num 5⟩] :
             List RawRow).map coerceRow).filter validRow).length =
      ([⟨"postgresql", "tpcb", .num 1, .num 1, .num 100, .num 10⟩,
           ⟨"postgresql", "tpcb", .num 1, .num 2, .txt "err", .num 11⟩] :
             List RawRow).countP (fun r => validRow (coerceRow r)) +
      ([⟨"citus", "tpcb", .num 1, .num 1, .num 150, .num 5⟩] :
             List RawRow).countP (fun r => validRow (coerceRow r)) := by
  have h := c5_combined_dataset (mkAnalyzer "b")
    (fun _ => true)
    (fun p => if p = (mkAnalyzer "b").postgresql_csv then
        [⟨"postgresql", "tpcb", .num 1, .num 1, .num 100, .num 10⟩,
         ⟨"postgresql", "tpcb", .num 1, .num 2, .txt "err", .num 11⟩]
      else [⟨"citus", "tpcb", .num 1, .num 1, .num 150, .num 5⟩])
    rfl rfl
  simpa using h

/-!
C10 — a row with a non-numeric client count but numeric metrics survives the
`dropna` filter (which tests only the two metrics) yet belongs to no group of
`calculate_statistics`, because pandas `groupby` silently drops rows whose
group key is NaN.
-/

/-- C10: for every input row whose client-count cell fails numeric coercion
while its throughput and latency are numeric, the coerced row is retained in
the combined dataset returned by `load_data`, yet it is a member of no group
of the statistics computation. -/
theorem c10_nan_clients_in_no_group (a : Analyzer) (ex : String → Bool)
    (content : String → List RawRow)
    (h1 : ex a.postgresql_csv = true) (h2 : ex a.citus_csv = true)
    (r : RawRow)
    (hr : r ∈ content a.postgresql_csv ++ content a.citus_csv)
    (hc : to_numeric r.Clients = none)
    (ht : (to_numeric r.TPS).isSome = true)
    (hl : (to_numeric r.Latency_Avg_ms).isSome = true) :
    ∃ out, load_data a ex content = .ok out ∧ coerceRow r ∈ out ∧
      ∀ k ∈ groupKeys out, coerceRow r ∉ groupRows out k := by
  refine ⟨((content a.postgresql_csv ++ content a.citus_csv).map coerceRow).filter
    validRow, ?_, ?_, ?_⟩
  · simp [load_data, h1, h2]
  · refine List.mem_filter.mpr ⟨List.mem_map_of_mem _ hr, ?_⟩
    simp [validRow, coerceRow, ht, hl]
  · intro k _ hmem
    have hkey : rowKeyQ (coerceRow r) = some k := by
      have := (List.mem_filter.mp hmem).2
      simpa using this
    have hnone : rowKeyQ (coerceRow r) = none := by
      simp [rowKeyQ, coerceRow, hc]
    rw [hnone] at hkey
    exact Option.noConfusion hkey

/-- Witness for C10: a Citus row with textual client count and numeric
metrics. -/
theorem c10_nan_clients_in_no_group_witness :
    ∃ out, load_data (mkAnalyzer "b") (fun _ => true)
        (fun p => if p = (mkAnalyzer "b").postgresql_csv then
            [⟨"postgresql", "tpcb", .num 1, .num 1, .num 100, .num 10⟩]
          else [⟨"citus", "tpcb", .txt "oops", .num 1, .num 150, .num 5⟩]) =
        .ok out ∧
      coerceRow ⟨"citus", "tpcb", .txt "oops", .num 1, .num 150, .num 5⟩ ∈ out ∧
      ∀ k ∈ groupKeys out,
        coerceRow ⟨"citus", "tpcb", .txt "oops", .num 1, .num 150, .num 5⟩ ∉
          groupRows out k :=
  c10_nan_clients_in_no_group (mkAnalyzer "b") (fun _ => true)
    (fun p => if p = (mkAnalyzer "b").postgresql_csv then
        [⟨"postgresql", "tpcb", .num 1, .num 1, .num 100, .num 10⟩]
      else [⟨"citus", "tpcb", .txt "oops", .num 1, .num 150, .num 5⟩])
    rfl rfl
    ⟨"citus", "tpcb", .txt "oops", .num 1, .num 150, .num 5⟩
    (by decide)
    rfl rfl rfl

/-!
C9 — subplot layout is a function of the number of distinct workloads alone,
with the three cases of lines 124-130 (repeated verbatim in all three
renderers).
-/

/-- C9: each chart renderer selects its subplot layout purely from the number
`n` of distinct workloads: `n = 1` gives a single standalone-sized plot,
`n = 2` a side-by-side pair, and `n ≥ 3` one row of `n` subplots whose width
grows linearly as `7 * n`. -/
theorem c9_layout_from_workload_count (stats : List Stat) (n : ℕ)
    (hn : n = (suitesOf stats).length) :
    (create_tps_comparison stats).layout = layoutFor n ∧
    (create_latency_comparison stats).layout = layoutFor n ∧
    (create_throughput_vs_latency stats).layout = layoutFor n ∧
    layoutFor 1 = ⟨1, 1, 10, 7⟩ ∧
    layoutFor 2 = ⟨1, 2, 15, 7⟩ ∧
    (∀ m : ℕ, 3 ≤ m → layoutFor m = ⟨1, m, 7 * (m : ℚ), 7⟩) := by
  subst hn
  refine ⟨rfl, rfl, rfl, rfl, rfl, ?_⟩
  intro m hm
  have h1 : m ≠ 1 := by omega
  have h2 : m ≠ 2 := by omega
  simp [layoutFor, h1, h2]

/-- Witness for C9 at a three-workload statistics table. -/
theorem c9_layout_from_workload_count_witness :
    (create_tps_comparison
      [⟨"postgresql", "a", 1, 100, 0, 100, 100, 10, 0, 10, 10, 1⟩,
       ⟨"postgresql", "b", 1, 90, 0, 90, 90, 12, 0, 12, 12, 1⟩,
       ⟨"postgresql", "c", 1, 80, 0, 80, 80, 14, 0, 14, 14, 1⟩]).layout = layoutFor 3 ∧
    (create_latency_comparison
      [⟨"postgresql", "a", 1, 100, 0, 100, 100, 10, 0, 10, 10, 1⟩,
       ⟨"postgresql", "b", 1, 90, 0, 90, 90, 12, 0, 12, 12, 1⟩,
       ⟨"postgresql", "c", 1, 80, 0, 80, 80, 14, 0, 14, 14, 1⟩]).layout = layoutFor 3 ∧
    (create_throughput_vs_latency
      [⟨"postgresql", "a", 1, 100, 0, 100, 100, 10, 0, 10, 10, 1⟩,
       ⟨"postgresql", "b", 1, 90, 0, 90, 90, 12, 0, 12, 12, 1⟩,
       ⟨"postgresql", "c", 1, 80, 0, 80, 80, 14, 0, 14, 14, 1⟩]).layout = layoutFor 3 ∧
    layoutFor 1 = ⟨1, 1, 10, 7⟩ ∧
    layoutFor 2 = ⟨1, 2, 15, 7⟩ ∧
    (∀ m : ℕ, 3 ≤ m → layoutFor m = ⟨1, m, 7 * (m : ℚ), 7⟩) :=
  c9_layout_from_workload_count
    [⟨"postgresql", "a", 1, 100, 0, 100, 100, 10, 0, 10, 10, 1⟩,
     ⟨"postgresql", "b", 1, 90, 0, 90, 90, 12, 0, 12, 12, 1⟩,
     ⟨"postgresql", "c", 1, 80, 0, 80, 80, 14, 0, 14, 14, 1⟩]
    3 (by decide)

/-!
C1 — the relative-difference column of each pivot satisfies the documented
formula over the pivot's two engine cells.
-/

/-- C1: for every pivot row key whose PostgreSQL and Citus cells are both
present, the `Citus_vs_PG_%` value of `create_summary_table`'s pivots equals
`(citus_cell - postgresql_cell) / postgresql_cell * 100` rounded to one
decimal place (Citus relative to PostgreSQL), for the TPS pivot and the
latency pivot alike. -/
theorem c1_pivot_relative_diff (stats : List Stat) (k : String × ℚ) :
    (∀ p c d, pivot_tps_cell stats k "postgresql" = some p →
      pivot_tps_cell stats k "citus" = some c →
      pivot_tps_diff stats k = some d →
      d = roundTo 1 ((c - p) / p * 100)) ∧
    (∀ p c d, pivot_latency_cell stats k "postgresql" = some p →
      pivot_latency_cell stats k "citus" = some c →
      pivot_latency_diff stats k = some d →
      d = roundTo 1 ((c - p) / p * 100)) := by
  constructor
  · intro p c d hp hc hd
    unfold pivot_tps_diff at hd
    split at hd
    · rw [hp, hc] at hd
      simp at hd
      exact hd.symm
    · exact absurd hd (by simp)
  · intro p c d hp hc hd
    unfold pivot_latency_diff at hd
    split at hd
    · rw [hp, hc] at hd
      simp at hd
      exact hd.symm
    · exact absurd hd (by simp)

/-- Witness for C1 at a two-engine, one-key statistics table:
TPS 100 vs 150 gives +50%, latency 10 vs 5 gives -50%. -/
theorem c1_pivot_relative_diff_witness :
    ((50 : ℚ) = roundTo 1 (((150 : ℚ) - 100) / 100 * 100)) ∧
    ((-50 : ℚ) = roundTo 1 (((5 : ℚ) - 10) / 10 * 100)) :=
  ⟨(c1_pivot_relative_diff
      [⟨"postgresql", "s", 1, 100, 0, 100, 100, 10, 0, 10, 10, 1⟩,
       ⟨"citus", "s", 1, 150, 0, 150, 150, 5, 0, 5, 5, 1⟩] ("s", 1)).1
    100 150 50
    (by norm_num +decide [pivot_tps_cell, mean, roundTo, roundHalfEven, ratFloor])
    (by norm_num +decide [pivot_tps_cell, mean, roundTo, roundHalfEven, ratFloor])
    (by norm_num +decide [pivot_tps_diff, pivot_tps_cell, hasCol, mean, roundTo,
      roundHalfEven, ratFloor]),
   (c1_pivot_relative_diff
      [⟨"postgresql", "s", 1, 100, 0, 100, 100, 10, 0, 10, 10, 1⟩,
       ⟨"citus", "s", 1, 150, 0, 150, 150, 5, 0, 5, 5, 1⟩] ("s", 1)).2
    10 5 (-50)
    (by norm_num +decide [pivot_latency_cell, mean, roundTo, roundHalfEven, ratFloor])
    (by norm_num +decide [pivot_latency_cell, mean, roundTo, roundHalfEven, ratFloor])
    (by norm_num +decide [pivot_latency_diff, pivot_latency_cell, hasCol, mean, roundTo,
      roundHalfEven, ratFloor])⟩

/-!
C6 — the relative-difference columns and the grand-mean analysis block exist
iff both engine columns exist in the pivot as a whole (a column-presence
check, not per-row); with an engine absent everything is skipped, with no
division and no error.
-/

/-- C6: `create_summary_table` adds the relative-difference column and the
grand-mean analysis block iff both engine columns are present in the pivot as
a whole; when an engine has no rows at all, the analysis block and every
relative-difference value are skipped (`none`) rather than computed. -/
theorem c6_column_presence_gate (stats : List Stat) :
    ((create_summary_table stats).analysis.isSome = true ↔
      (hasCol stats "postgresql" = true ∧ hasCol stats "citus" = true)) ∧
    (∀ k, (pivot_tps_diff stats k).isSome = true →
      hasCol stats "postgresql" = true ∧ hasCol stats "citus" = true) ∧
    (∀ k, (pivot_latency_diff stats k).isSome = true →
      hasCol stats "postgresql" = true ∧ hasCol stats "citus" = true) ∧
    ((hasCol stats "postgresql" = false ∨ hasCol stats "citus" = false) →
      (create_summary_table stats).analysis = none ∧
      ∀ k, pivot_tps_diff stats k = none ∧ pivot_latency_diff stats k = none) := by
  by_cases hpg : hasCol stats "postgresql" = true
  · by_cases hct : hasCol stats "citus" = true
    · refine ⟨?_, ?_, ?_, ?_⟩
      · simp [create_summary_table, hpg, hct]
      · intro k _
        exact ⟨hpg, hct⟩
      · intro k _
        exact ⟨hpg, hct⟩
      · rintro (h | h)
        · rw [hpg] at h
          exact absurd h (by simp)
        · rw [hct] at h
          exact absurd h (by simp)
    · have hct2 : hasCol stats "citus" = false := by
        simpa using hct
      refine ⟨?_, ?_, ?_, ?_⟩
      · simp [create_summary_table, hct2]
      · intro k hk
        rw [pivot_tps_diff, hct2] at hk
        simp at hk
      · intro k hk
        rw [pivot_latency_diff, hct2] at hk
        simp at hk
      · intro _
        refine ⟨by simp [create_summary_table, hct2], fun k => ?_⟩
        constructor
        · rw [pivot_tps_diff, hct2]
          simp
        · rw [pivot_latency_diff, hct2]
          simp
  · have hpg2 : hasCol stats "postgresql" = false := by
      simpa using hpg
    refine ⟨?_, ?_, ?_, ?_⟩
    · simp [create_summary_table, hpg2]
    · intro k hk
      rw [pivot_tps_diff, hpg2] at hk
      simp at hk
    · intro k hk
      rw [pivot_latency_diff, hpg2] at hk
      simp at hk
    · intro _
      refine ⟨by simp [create_summary_table, hpg2], fun k => ?_⟩
      constructor
      · rw [pivot_tps_diff, hpg2]
        simp
      · rw [pivot_latency_diff, hpg2]
        simp

/-- Witness for C6 at a PostgreSQL-only statistics table: the analysis block
and every relative-difference value are skipped. -/
theorem c6_column_presence_gate_witness :
    (create_summary_table
      [⟨"postgresql", "s", 1, 100, 0, 100, 100, 10, 0, 10, 10, 1⟩]).analysis = none ∧
    ∀ k, pivot_tps_diff
        [⟨"postgresql", "s", 1, 100, 0, 100, 100, 10, 0, 10, 10, 1⟩] k = none ∧
      pivot_latency_diff
        [⟨"postgresql", "s", 1, 100, 0, 100, 100, 10, 0, 10, 10, 1⟩] k = none :=
  (c6_column_presence_gate
    [⟨"postgresql", "s", 1, 100, 0, 100, 100, 10, 0, 10, 10, 1⟩]).2.2.2
    (Or.inr (by decide))

/-!
C7 — the verdict lines of the summary analysis use strict comparisons of the
grand means (`if avg_tps_citus > avg_tps_pg`, `if avg_lat_citus <
avg_lat_pg`), so every tie falls to the `else` branch and names PostgreSQL.
-/

/-- C7: in the analysis block written by `create_summary_table`, the
throughput verdict names Citus iff its grand-mean TPS is strictly greater
than PostgreSQL's, the latency verdict names Citus iff its grand-mean latency
is strictly lower, and on every tie the verdict names PostgreSQL. -/
theorem c7_verdict_strict (stats : List Stat) (b : AnalysisBlock)
    (h : (create_summary_table stats).analysis = some b) :
    (b.tpsVerdict = .citus ↔ b.avg_tps_pg < b.avg_tps_citus) ∧
    (b.latVerdict = .citus ↔ b.avg_lat_citus < b.avg_lat_pg) ∧
    (b.avg_tps_citus = b.avg_tps_pg → b.tpsVerdict = .postgresql) ∧
    (b.avg_lat_citus = b.avg_lat_pg → b.latVerdict = .postgresql) := by
  simp only [create_summary_table] at h
  split at h
  · have hb := (Option.some.inj h).symm
    subst hb
    refine ⟨?_, ?_, ?_, ?_⟩
    · by_cases hlt : mean ((pivotKeys stats).filterMap
          (fun k => pivot_tps_cell stats k "postgresql")) <
          mean ((pivotKeys stats).filterMap (fun k => pivot_tps_cell stats k "citus"))
      · simp [hlt]
      · simp [hlt]
    · by_cases hlt : mean ((pivotKeys stats).filterMap
          (fun k => pivot_latency_cell stats k "citus")) <
          mean ((pivotKeys stats).filterMap (fun k => pivot_latency_cell stats k "postgresql"))
      · simp [hlt]
      · simp [hlt]
    · intro heq
      show (if _ < _ then Verdict.citus else Verdict.postgresql) = Verdict.postgresql
      rw [if_neg]
      rw [show (mean ((pivotKeys stats).filterMap (fun k => pivot_tps_cell stats k "citus"))) =
        mean ((pivotKeys stats).filterMap (fun k => pivot_tps_cell stats k "postgresql")) from heq]
      exact lt_irrefl _
    · intro heq
      show (if _ < _ then Verdict.citus else Verdict.postgresql) = Verdict.postgresql
      rw [if_neg]
      rw [show (mean ((pivotKeys stats).filterMap (fun k => pivot_latency_cell stats k "citus"))) =
        mean ((pivotKeys stats).filterMap (fun k => pivot_latency_cell stats k "postgresql")) from heq]
      exact lt_irrefl _
  · exact absurd h (by simp)

/-- Witness for C7: with TPS grand means 100 (PostgreSQL) vs 150 (Citus) and
latency grand means 10 vs 5, both verdicts name Citus. -/
theorem c7_verdict_strict_witness :
    ((⟨100, 150, 10, 5, 50, -50, .citus, .citus⟩ : AnalysisBlock).tpsVerdict =
        .citus ↔
      (⟨100, 150, 10, 5, 50, -50, .citus, .citus⟩ : AnalysisBlock).avg_tps_pg <
      (⟨100, 150, 10, 5, 50, -50, .citus, .citus⟩ : AnalysisBlock).avg_tps_citus) ∧
    ((⟨100, 150, 10, 5, 50, -50, .citus, .citus⟩ : AnalysisBlock).latVerdict =
        .citus ↔
      (⟨100, 150, 10, 5, 50, -50, .citus, .citus⟩ : AnalysisBlock).avg_lat_citus <
      (⟨100, 150, 10, 5, 50, -50, .citus, .citus⟩ : AnalysisBlock).avg_lat_pg) ∧
    ((⟨100, 150, 10, 5, 50, -50, .citus, .citus⟩ : AnalysisBlock).avg_tps_citus =
      (⟨100, 150, 10, 5, 50, -50, .citus, .citus⟩ : AnalysisBlock).avg_tps_pg →
      (⟨100, 150, 10, 5, 50, -50, .citus, .citus⟩ : AnalysisBlock).tpsVerdict =
        .postgresql) ∧
    ((⟨100, 150, 10, 5, 50, -50, .citus, .citus⟩ : AnalysisBlock).avg_lat_citus =
      (⟨100, 150, 10, 5, 50, -50, .citus, .citus⟩ : AnalysisBlock).avg_lat_pg →
      (⟨100, 150, 10, 5, 50, -50, .citus, .citus⟩ : AnalysisBlock).latVerdict =
        .postgresql) :=
  c7_verdict_strict
    [⟨"postgresql", "s", 1, 100, 0, 100, 100, 10, 0, 10, 10, 1⟩,
     ⟨"citus", "s", 1, 150, 0, 150, 150, 5, 0, 5, 5, 1⟩]
    ⟨100, 150, 10, 5, 50, -50, .citus, .citus⟩
    (by
      norm_num +decide [create_summary_table, pivotKeys, hasCol, pivot_tps_cell,
        pivot_latency_cell, mean, roundTo, roundHalfEven, ratFloor, sortBy, sortIns,
        keyLe2, strLe, uniqueList, List.filterMap_cons, List.filterMap_nil])

/-!
C3 — a workload with rows for only one engine.  The scatter renderer indeed
draws the absent engine's series as empty, with no error.  The grouped-bar
renderers, however, pass `x = np.arange(len(pg_data))` together with the
other engine's heights to `ax.bar`, and numpy's broadcast of the shapes
`(n,)` and `(0,)` raises a `ValueError` whenever `n ≥ 2`; only when the
present engine has at most one row does the subplot render with the absent
series empty.
-/

/-- C3 counterexample: a workload with two PostgreSQL rows and no Citus rows
makes both grouped-bar renderers raise a shape-mismatch error instead of
drawing an empty Citus series. -/
theorem c3_empty_engine_counterexample :
    dbRows (suiteRows
      [⟨"postgresql", "w", 1, 100, 0, 100, 100, 10, 0, 10, 10, 1⟩,
       ⟨"postgresql", "w", 2, 90, 0, 90, 90, 12, 0, 12, 12, 1⟩] "w") "postgresql" ≠ [] ∧
    dbRows (suiteRows
      [⟨"postgresql", "w", 1, 100, 0, 100, 100, 10, 0, 10, 10, 1⟩,
       ⟨"postgresql", "w", 2, 90, 0, 90, 90, 12, 0, 12, 12, 1⟩] "w") "citus" = [] ∧
    (create_tps_comparison
      [⟨"postgresql", "w", 1, 100, 0, 100, 100, 10, 0, 10, 10, 1⟩,
       ⟨"postgresql", "w", 2, 90, 0, 90, 90, 12, 0, 12, 12, 1⟩]).panels =
      .error (.shapeMismatch 2 0) ∧
    (create_latency_comparison
      [⟨"postgresql", "w", 1, 100, 0, 100, 100, 10, 0, 10, 10, 1⟩,
       ⟨"postgresql", "w", 2, 90, 0, 90, 90, 12, 0, 12, 12, 1⟩]).panels =
      .error (.shapeMismatch 2 0) := by
  refine ⟨by decide, by decide, rfl, rfl⟩

/-- C3 amended: for a workload with rows for exactly one of the two engines,
the scatter renderer draws the absent engine's series as empty with no error;
a grouped-bar renderer does so iff the present engine has at most one row for
that workload — with two or more rows its `ax.bar` call raises a
shape-mismatch error. -/
theorem c3_empty_engine_amended (stats : List Stat) (s : String) (meanOf : Stat → ℚ) :
    (dbRows (suiteRows stats s) "citus" = [] →
      (scatterPanel stats s).citusPoints = [] ∧
      ((dbRows (suiteRows stats s) "postgresql").length ≤ 1 →
        ∃ pnl, barPanel meanOf stats s = .ok pnl ∧ pnl.citusBars = []) ∧
      (2 ≤ (dbRows (suiteRows stats s) "postgresql").length →
        barPanel meanOf stats s =
          .error (.shapeMismatch (dbRows (suiteRows stats s) "postgresql").length 0))) ∧
    (dbRows (suiteRows stats s) "postgresql" = [] →
      (scatterPanel stats s).pgPoints = [] ∧
      ((dbRows (suiteRows stats s) "citus").length ≤ 1 →
        ∃ pnl, barPanel meanOf stats s = .ok pnl ∧ pnl.pgBars = []) ∧
      (2 ≤ (dbRows (suiteRows stats s) "citus").length →
        barPanel meanOf stats s =
          .error (.shapeMismatch 0 (dbRows (suiteRows stats s) "citus").length))) := by
  constructor
  · intro hcit
    refine ⟨by simp [scatterPanel, hcit], ?_, ?_⟩
    · intro hle
      refine ⟨{ suite := s
                pgBars := (dbRows (suiteRows stats s) "postgresql").map meanOf
                citusBars := []
                xticks := (dbRows (suiteRows stats s) "postgresql").map
                  (fun r => r.Clients) }, ?_, rfl⟩
      rcases Nat.le_one_iff_eq_zero_or_eq_one.mp hle with h0 | h1
      · simp [barPanel, hcit, h0, broadcast2, broadcastTo]
      · simp [barPanel, hcit, h1, broadcast2, broadcastTo]
    · intro h2
      have hne0 : (dbRows (suiteRows stats s) "postgresql").length ≠ 0 := by omega
      have hne1 : (dbRows (suiteRows stats s) "postgresql").length ≠ 1 := by omega
      simp [barPanel, hcit, broadcast2, hne0, hne1]
  · intro hpg
    refine ⟨by simp [scatterPanel, hpg], ?_, ?_⟩
    · intro hle
      rcases Nat.le_one_iff_eq_zero_or_eq_one.mp hle with h0 | h1
      · have hn : dbRows (suiteRows stats s) "citus" = [] :=
          List.length_eq_zero.mp h0
        refine ⟨{ suite := s, pgBars := [], citusBars := [], xticks := [] }, ?_, rfl⟩
        simp [barPanel, hpg, hn, broadcast2, broadcastTo]
      · refine ⟨{ suite := s
                  pgBars := []
                  citusBars := broadcastTo
                    ((dbRows (suiteRows stats s) "citus").map meanOf) 0
                  xticks := [] }, ?_, rfl⟩
        simp [barPanel, hpg, h1, broadcast2]
    · intro h2
      have hne0 : (dbRows (suiteRows stats s) "citus").length ≠ 0 := by omega
      have hne1 : (dbRows (suiteRows stats s) "citus").length ≠ 1 := by omega
      simp [barPanel, hpg, broadcast2, hne0, hne1, Ne.symm hne0]

/-- Witness for C3's amended statement: one PostgreSQL row and no Citus rows
render with an empty Citus bar series and no error. -/
theorem c3_empty_engine_amended_witness :
    ∃ pnl, barPanel (fun r => r.TPS_mean)
        [⟨"postgresql", "w", 1, 100, 0, 100, 100, 10, 0, 10, 10, 1⟩] "w" =
        .ok pnl ∧ pnl.citusBars = [] :=
  ((c3_empty_engine_amended
      [⟨"postgresql", "w", 1, 100, 0, 100, 100, 10, 0, 10, 10, 1⟩] "w"
      (fun r => r.TPS_mean)).1 (by decide)).2.1 (by decide)

end GenCharts
